import Mathlib

/-! Verification of the ticket-system core against its specification

Shallow embedding of the repository's core functions:

* `src/services.py` — status engine (`next_status` / `prev_status`),
  user service (`get_user_by_username`, `login_user`, `deactivate_user`),
  ticket service (`create_ticket`, `fetch_tickets`, `update_ticket`);
* `src/test1.py` — `TicketRepository.create`, `TicketRepository.update`,
  `UserRepository.deactivate` (same schema as `services.py`);
* `src/Mein Ticketsystem/db.py` — `Ticket.repo_ticket_erstellen`,
  `Ticket.aktualisiere` (the `ticket` table schema with German column names);
* `src/Mein Ticketsystem/services.py` — `TicketDienst.svc_ticket_erstellen`.

Database tables become Lean lists of rows; `datetime.now(...)` becomes an
explicit `now : String` parameter (the functions compute it once per call,
which the embedding mirrors by threading a single value); SQL statements
whose text is built by the Python code are embedded by their effect on the
table, with the WHERE-clause construction of `fetch_tickets` mirrored
condition by condition.
-/

/-- From `services.py` line 6: the fixed ordered status sequence
`STATI = ["Neu", "In Bearbeitung", "Warten auf Benutzer", "Gelöst", "Geschlossen"]`. -/
def STATI : List String :=
  ["Neu", "In Bearbeitung", "Warten auf Benutzer", "Gelöst", "Geschlossen"]

/-- From `services.py` line 7: `PRIO = ["Niedrig", "Normal", "Hoch", "Kritisch"]`. -/
def PRIO : List String := ["Niedrig", "Normal", "Hoch", "Kritisch"]

/-- Python's `list.index`: index of the first element equal to `s`,
`none` where Python raises `ValueError`. -/
def listIndex (s : String) : List String → Option Nat
  | [] => none
  | x :: xs => if s = x then some 0 else (listIndex s xs).map (· + 1)

/-- From `services.py` lines 32–37: `next_status` — `STATI[min(i + 1, len(STATI) - 1)]`
when `s` has an index `i`, else (the `except ValueError` branch) `s` itself. -/
def next_status (s : String) : String :=
  match listIndex s STATI with
  | some i => STATI.getD (min (i + 1) (STATI.length - 1)) s
  | none => s

/-- From `services.py` lines 39–44: `prev_status` — `STATI[max(i - 1, 0)]`
when `s` has an index `i`, else `s` itself. -/
def prev_status (s : String) : String :=
  match listIndex s STATI with
  | some i => STATI.getD (max (i - 1) 0) s
  | none => s

/-! Section: data model: `users` and `tickets` tables (`services.py` / `test1.py` schema) -/

/-- A row of the `users` table:
`users(id, username, role, password_hash, active, deleted_at)`.
`active` is the stored integer flag (1 = active), `deleted_at` is NULL-able. -/
structure UserRow where
  id : Nat
  username : String
  role : String
  password_hash : String
  active : Int
  deleted_at : Option String
deriving Repr, DecidableEq

/-- A row of the `tickets` table:
`tickets(id, title, description, category, status, priority, creator_id,
assignee_id, created_at, updated_at, archived)`.
`archived` is the stored integer flag (0 = not archived). -/
structure TicketRow where
  id : Nat
  title : String
  description : String
  category : String
  status : String
  priority : String
  creator_id : Nat
  assignee_id : Option Nat
  created_at : String
  updated_at : String
  archived : Int
deriving Repr, DecidableEq

/-- The `tickets` table together with its AUTO_INCREMENT counter
(`lastrowid` of a fresh insert is `nextId`). -/
structure TicketsTable where
  rows : List TicketRow
  nextId : Nat
deriving Repr, DecidableEq

/-! Section: user service (`services.py` lines 57–83, `test1.py` lines 142–147) -/

/-- Python's `str.strip()`: drop leading and trailing whitespace.
Written by structural recursion over the character list so that concrete
calls evaluate inside proofs. -/
def pyStrip (s : String) : String :=
  ⟨((s.toList.dropWhile Char.isWhitespace).reverse.dropWhile
      Char.isWhitespace).reverse⟩

/-- From `services.py` lines 57–64 (`get_user_by_username`) and `test1.py`
lines 116–124 (`UserRepository.get_by_username`): select the rows whose
`username` equals the stripped argument; return `None` when no row matches
**or** when the first matching row has `active != 1`, else the first row. -/
def get_user_by_username (users : List UserRow) (username : String) : Option UserRow :=
  let rows := users.filter (fun r => r.username == pyStrip username)
  match rows with
  | [] => none
  | r :: _ => if r.active != 1 then none else some r

/-- The session payload `{"id": ..., "username": ..., "role": ...}` returned
by a successful login. -/
structure SessionPayload where
  id : Nat
  username : String
  role : String
deriving Repr, DecidableEq

/-- From `services.py` lines 66–72 (`login_user`) and `test1.py` lines 245–251
(`AuthService.login`): look up the active user by the stripped username;
on no match return `None`; otherwise verify the password against the stored
hash and return the session payload on success, `None` on failure.
The bcrypt check (`verify_pw_bcrypt`) is an external library call and is
passed in as the function `verify`. -/
def login_user (verify : String → String → Bool) (users : List UserRow)
    (username password : String) : Option SessionPayload :=
  match get_user_by_username users (pyStrip username) with
  | none => none
  | some u =>
      if verify password u.password_hash then
        some { id := u.id, username := u.username, role := u.role }
      else none

/-- From `services.py` lines 82–83 (`deactivate_user`) and `test1.py`
lines 142–147 (`UserRepository.deactivate`):
`UPDATE users SET active=0, deleted_at=NOW() WHERE id=%s`. -/
def deactivate_user (user_id : Nat) (now : String) (users : List UserRow) :
    List UserRow :=
  users.map (fun u =>
    if u.id == user_id then { u with active := 0, deleted_at := some now } else u)

/-! Section: ticket creation (`services.py` lines 86–93, `test1.py` lines 152–163) -/

/-- From `services.py` lines 86–93 (`create_ticket`): computes `now` once, then
`INSERT INTO tickets (title, description, category, status, priority,
creator_id, created_at, updated_at, archived)
VALUES (%s,%s,%s,"Neu",%s,%s,now,now,0)`.
The Python function has no `return` statement, so its value is `None`
(`none` here); the `lastrowid` produced by `query_execute` is discarded. -/
def create_ticket (title description category priority : String)
    (creator_id : Nat) (now : String) (db : TicketsTable) :
    Option Nat × TicketsTable :=
  let row : TicketRow :=
    { id := db.nextId, title := title, description := description,
      category := category, status := "Neu", priority := priority,
      creator_id := creator_id, assignee_id := none,
      created_at := now, updated_at := now, archived := 0 }
  (none, { rows := db.rows ++ [row], nextId := db.nextId + 1 })

namespace TicketRepository

/-- From `test1.py` lines 152–163 (`TicketRepository.create`): same INSERT as
`create_ticket` — status `"Neu"`, `archived` 0, both timestamps the single
`now` computed at the start — but this variant returns `cur.lastrowid`. -/
def create (title description category priority : String)
    (creator_id : Nat) (now : String) (db : TicketsTable) :
    Nat × TicketsTable :=
  let row : TicketRow :=
    { id := db.nextId, title := title, description := description,
      category := category, status := "Neu", priority := priority,
      creator_id := creator_id, assignee_id := none,
      created_at := now, updated_at := now, archived := 0 }
  (db.nextId, { rows := db.rows ++ [row], nextId := db.nextId + 1 })

end TicketRepository

/-! Section: the `Mein Ticketsystem` variant (`db.py` / `services.py` there) -/

/-- A row of the `ticket` table of the `Mein Ticketsystem` variant:
`ticket(ID_Ticket, Titel, Beschreibung, Priorität, ID_Status, ID_Kunde,
Erstellt_am, Geändert_am, Archiviert, Geändert_von)`.
`ID_Status` is NULL-able (the insert in `repo_ticket_erstellen` writes
`NULL` there). -/
structure TicketRowMT where
  ID_Ticket : Nat
  Titel : String
  Beschreibung : String
  Prioritaet : String
  ID_Status : Option Nat
  ID_Kunde : Option Nat
  Erstellt_am : String
  Geaendert_am : String
  Archiviert : Int
  Geaendert_von : Nat
deriving Repr, DecidableEq

/-- The `ticket` table of the `Mein Ticketsystem` variant with its
AUTO_INCREMENT counter. -/
structure TicketTableMT where
  rows : List TicketRowMT
  nextId : Nat
deriving Repr, DecidableEq

namespace Ticket

/-- From `Mein Ticketsystem/db.py` lines 154–191 (`Ticket.repo_ticket_erstellen`):
computes `now` once, then
`INSERT INTO ticket (Titel, Beschreibung, Priorität, ID_Status, ID_Kunde,
Erstellt_am, Geändert_am, Archiviert, Geändert_von)
VALUES (%s,%s,%s,NULL,%s,now,now,0,%s)` and returns the new row's id.
Note the literal `NULL` written into `ID_Status`. -/
def repo_ticket_erstellen (titel beschreibung prioritaet : String)
    (id_kunde : Option Nat) (ersteller_id : Nat) (now : String)
    (db : TicketTableMT) : Nat × TicketTableMT :=
  let row : TicketRowMT :=
    { ID_Ticket := db.nextId, Titel := titel, Beschreibung := beschreibung,
      Prioritaet := prioritaet, ID_Status := none, ID_Kunde := id_kunde,
      Erstellt_am := now, Geaendert_am := now, Archiviert := 0,
      Geaendert_von := ersteller_id }
  (db.nextId, { rows := db.rows ++ [row], nextId := db.nextId + 1 })

end Ticket

/-- From `Mein Ticketsystem/services.py` lines 6–10: the priority values the
service layer validates against, `PRIO_WERTE = ["niedrig", "mittel", "hoch"]`. -/
def PRIO_WERTE : List String := ["niedrig", "mittel", "hoch"]

namespace TicketDienst

/-- From `Mein Ticketsystem/services.py` lines 93–112
(`TicketDienst.svc_ticket_erstellen`): replaces the priority by `"mittel"`
when it is not in `PRIO_WERTE` (`if prioritaet not in PRIO_WERTE:
prioritaet = "mittel"`), then delegates to `Ticket.repo_ticket_erstellen`. -/
def svc_ticket_erstellen (titel beschreibung prioritaet : String)
    (id_kunde : Option Nat) (ersteller_id : Nat) (now : String)
    (db : TicketTableMT) : Nat × TicketTableMT :=
  let prioritaet := if prioritaet ∉ PRIO_WERTE then "mittel" else prioritaet
  Ticket.repo_ticket_erstellen titel beschreibung prioritaet id_kunde
    ersteller_id now db

end TicketDienst

/-! Section: `fetch_tickets` (`services.py` lines 95–114, `test1.py` lines 165–199) -/

/-- MySQL `LIKE '%term%'`: `term` occurs as a substring of `s`
(`String.splitOn` yields more than one piece exactly when the separator
occurs; the callers only pass non-empty search terms). -/
def likeContains (s term : String) : Bool := (s.splitOn term).length != 1

/-- From `services.py` lines 96–103 / `test1.py` lines 169–186: the `where` list
built by `fetch_tickets`, one Boolean condition per appended SQL fragment,
in the order the Python code appends them:
`t.archived = 0` when `not archived`; `t.creator_id = %s` when
`creator_id is not None`; the title/description `LIKE` disjunction when
`search_term` is truthy; `t.category = %s` when `category` is truthy and
not `"Alle"`; `t.priority = %s` when `priority` is truthy and not `"Alle"`
(Python truthiness: `None` and `""` are falsy). -/
def whereConds (creator_id : Option Nat) (archived : Bool)
    (search_term category priority : Option String) :
    List (TicketRow → Bool) :=
  (if !archived then [fun t => t.archived == 0] else ([] : List (TicketRow → Bool)))
  ++ (match creator_id with
      | some cid => [fun t => t.creator_id == cid]
      | none => ([] : List (TicketRow → Bool)))
  ++ (match search_term with
      | some s =>
          if s != "" then
            [fun t => likeContains t.title s || likeContains t.description s]
          else ([] : List (TicketRow → Bool))
      | none => ([] : List (TicketRow → Bool)))
  ++ (match category with
      | some c =>
          if c != "" && c != "Alle" then [fun t => t.category == c]
          else ([] : List (TicketRow → Bool))
      | none => ([] : List (TicketRow → Bool)))
  ++ (match priority with
      | some p =>
          if p != "" && p != "Alle" then [fun t => t.priority == p]
          else ([] : List (TicketRow → Bool))
      | none => ([] : List (TicketRow → Bool)))

/-- Insert a ticket into a list kept in `ORDER BY updated_at DESC` order. -/
def insertByUpdatedDesc (t : TicketRow) : List TicketRow → List TicketRow
  | [] => [t]
  | x :: xs =>
      if t.updated_at < x.updated_at then x :: insertByUpdatedDesc t xs
      else t :: x :: xs

/-- The `ORDER BY t.updated_at DESC` ordering as an insertion sort. -/
def sortByUpdatedDesc : List TicketRow → List TicketRow
  | [] => []
  | x :: xs => insertByUpdatedDesc x (sortByUpdatedDesc xs)

/-- A result row of `fetch_tickets`:
`SELECT t.*, u.username AS creator_name, a.username AS assignee_name`. -/
structure FetchedRow where
  ticket : TicketRow
  creator_name : String
  assignee_name : Option String
deriving Repr, DecidableEq

/-- The join of `fetch_tickets`:
`JOIN users u ON u.id = t.creator_id` (inner — a ticket without a matching
creator row produces no result row) and
`LEFT JOIN users a ON a.id = t.assignee_id` (an unmatched or NULL assignee
yields a NULL `assignee_name`). -/
def joinNames (users : List UserRow) (t : TicketRow) : Option FetchedRow :=
  (users.find? (fun u => u.id == t.creator_id)).map fun u =>
    { ticket := t, creator_name := u.username,
      assignee_name :=
        t.assignee_id.bind fun aid =>
          (users.find? (fun a => a.id == aid)).map (·.username) }

/-- From `services.py` lines 95–114 (`fetch_tickets`) and `test1.py`
lines 165–199 (`TicketRepository.fetch`): filter the tickets by the
conjunction of the built WHERE conditions, order by `updated_at`
descending, and enrich each row with creator/assignee names via the join. -/
def fetch_tickets (creator_id : Option Nat) (archived : Bool)
    (search_term category priority : Option String)
    (users : List UserRow) (tickets : List TicketRow) : List FetchedRow :=
  let conds := whereConds creator_id archived search_term category priority
  let filtered := tickets.filter (fun t => conds.all (fun c => c t))
  (sortByUpdatedDesc filtered).filterMap (joinNames users)

/-! Section: `update_ticket` (`services.py` lines 116–121, `test1.py` lines 201–211,
`Mein Ticketsystem/db.py` lines 258–288) -/

/-- A SQL parameter value of the update field mappings. -/
inductive Value where
  | str (s : String)
  | int (n : Int)
  | null
deriving Repr, DecidableEq

/-- A Python `dict` of column name → value, in insertion order
(`fields` / `felder`). -/
abbrev Fields := List (String × Value)

/-- Python `dict` lookup `fields.get(k)`. -/
def lookupField (fs : Fields) (k : String) : Option Value :=
  (fs.find? (fun kv => kv.1 == k)).map (·.2)

/-- Python `dict.setdefault(k, v)`: leave the dict unchanged when the key is
present, else append the pair at the end (insertion order). -/
def dictSetdefault (fs : Fields) (k : String) (v : Value) : Fields :=
  if (fs.find? (fun kv => kv.1 == k)).isSome then fs else fs ++ [(k, v)]

/-- Python `dict` assignment `fs[k] = v`: overwrite the value in place when
the key is present (keeping its position), else append the pair at the end. -/
def dictSet (fs : Fields) (k : String) (v : Value) : Fields :=
  if (fs.find? (fun kv => kv.1 == k)).isSome then
    fs.map (fun kv => if kv.1 == k then (k, v) else kv)
  else fs ++ [(k, v)]

/-- Effect of one `SET col=%s` assignment on a `tickets` row, dispatched on
the column name (the columns of the `tickets` schema; the callers only pass
columns of this closed set). -/
def applyField (t : TicketRow) (kv : String × Value) : TicketRow :=
  if kv.1 = "title" then
    match kv.2 with | .str s => { t with title := s } | _ => t
  else if kv.1 = "description" then
    match kv.2 with | .str s => { t with description := s } | _ => t
  else if kv.1 = "category" then
    match kv.2 with | .str s => { t with category := s } | _ => t
  else if kv.1 = "status" then
    match kv.2 with | .str s => { t with status := s } | _ => t
  else if kv.1 = "priority" then
    match kv.2 with | .str s => { t with priority := s } | _ => t
  else if kv.1 = "created_at" then
    match kv.2 with | .str s => { t with created_at := s } | _ => t
  else if kv.1 = "updated_at" then
    match kv.2 with | .str s => { t with updated_at := s } | _ => t
  else if kv.1 = "creator_id" then
    match kv.2 with | .int n => { t with creator_id := n.toNat } | _ => t
  else if kv.1 = "assignee_id" then
    match kv.2 with
    | .int n => { t with assignee_id := some n.toNat }
    | .null => { t with assignee_id := none }
    | _ => t
  else if kv.1 = "archived" then
    match kv.2 with | .int n => { t with archived := n } | _ => t
  else t

/-- From `services.py` lines 116–121 (`update_ticket`): no write at all when the
field mapping is empty (`if not fields: return`); otherwise
`fields.setdefault("updated_at", now_utc_str())` — the current instant is
added **only when the caller did not supply `updated_at`** — and then
`UPDATE tickets SET ... WHERE id=%s` applies every pair to the row with the
given id. -/
def update_ticket (tid : Nat) (fields : Fields) (now : String)
    (rows : List TicketRow) : List TicketRow :=
  if fields.isEmpty then rows
  else
    let fields := dictSetdefault fields "updated_at" (.str now)
    rows.map (fun t => if t.id == tid then fields.foldl applyField t else t)

namespace TicketRepository

/-- From `test1.py` lines 201–211 (`TicketRepository.update`): no write when the
mapping is empty; otherwise `fields["updated_at"] = now` — an unconditional
dict assignment that **overwrites** any caller-supplied value — and the same
UPDATE. -/
def update (tid : Nat) (fields : Fields) (now : String)
    (rows : List TicketRow) : List TicketRow :=
  if fields.isEmpty then rows
  else
    let fields := dictSet fields "updated_at" (.str now)
    rows.map (fun t => if t.id == tid then fields.foldl applyField t else t)

end TicketRepository

/-- Effect of one `SET col=%s` assignment on a `ticket` row of the
`Mein Ticketsystem` schema, dispatched on the column name. -/
def applyFieldMT (t : TicketRowMT) (kv : String × Value) : TicketRowMT :=
  if kv.1 = "Titel" then
    match kv.2 with | .str s => { t with Titel := s } | _ => t
  else if kv.1 = "Beschreibung" then
    match kv.2 with | .str s => { t with Beschreibung := s } | _ => t
  else if kv.1 = "Priorität" then
    match kv.2 with | .str s => { t with Prioritaet := s } | _ => t
  else if kv.1 = "ID_Status" then
    match kv.2 with
    | .int n => { t with ID_Status := some n.toNat }
    | .null => { t with ID_Status := none }
    | _ => t
  else if kv.1 = "ID_Kunde" then
    match kv.2 with
    | .int n => { t with ID_Kunde := some n.toNat }
    | .null => { t with ID_Kunde := none }
    | _ => t
  else if kv.1 = "Erstellt_am" then
    match kv.2 with | .str s => { t with Erstellt_am := s } | _ => t
  else if kv.1 = "Geändert_am" then
    match kv.2 with | .str s => { t with Geaendert_am := s } | _ => t
  else if kv.1 = "Archiviert" then
    match kv.2 with | .int n => { t with Archiviert := n } | _ => t
  else if kv.1 = "Geändert_von" then
    match kv.2 with | .int n => { t with Geaendert_von := n.toNat } | _ => t
  else t

namespace Ticket

/-- From `Mein Ticketsystem/db.py` lines 258–288 (`Ticket.aktualisiere`): no
write when the mapping is empty (`if not felder: return`); otherwise
`felder["Geändert_am"] = now` — an unconditional dict assignment that
**overwrites** any caller-supplied value — then
`UPDATE ticket SET ... WHERE ID_Ticket=%s`. -/
def aktualisiere (ticket_id : Nat) (felder : Fields) (now : String)
    (rows : List TicketRowMT) : List TicketRowMT :=
  if felder.isEmpty then rows
  else
    let felder := dictSet felder "Geändert_am" (.str now)
    rows.map (fun t =>
      if t.ID_Ticket == ticket_id then felder.foldl applyFieldMT t else t)

end Ticket

/-! Section: concrete fixtures used by counterexamples and witnesses -/

/-- An empty `tickets` table whose next AUTO_INCREMENT id is 1. -/
def emptyTickets : TicketsTable := { rows := [], nextId := 1 }

/-- An empty `ticket` table (`Mein Ticketsystem` schema) with next id 1. -/
def emptyTicketMT : TicketTableMT := { rows := [], nextId := 1 }

/-- An active user row. -/
def aliceActive : UserRow :=
  { id := 1, username := "alice", role := "user", password_hash := "h1",
    active := 1, deleted_at := none }

/-- A deactivated user row (its correct password hash is `"pw"` under the
witness's stand-in verifier). -/
def bobInactive : UserRow :=
  { id := 2, username := "bob", role := "user", password_hash := "pw",
    active := 0, deleted_at := some "2025-10-27 16:41:58" }

/-- A concrete non-archived ticket row created by `aliceActive`. -/
def sampleTicket : TicketRow :=
  { id := 1, title := "Laptop startet nicht",
    description := "Bildschirm bleibt schwarz", category := "Hardware",
    status := "Neu", priority := "Hoch", creator_id := 1,
    assignee_id := none, created_at := "2025-10-25 11:40:21",
    updated_at := "2025-10-25 11:40:21", archived := 0 }

/-- A concrete ticket row of the `Mein Ticketsystem` schema. -/
def sampleTicketMT : TicketRowMT :=
  { ID_Ticket := 1, Titel := "VPN instabil",
    Beschreibung := "Verbindung bricht ab", Prioritaet := "hoch",
    ID_Status := none, ID_Kunde := none,
    Erstellt_am := "2025-10-25 11:40:21",
    Geaendert_am := "2025-10-25 11:40:21", Archiviert := 0,
    Geaendert_von := 1 }

/-! Section: theorems.  Helper lemmas come first, then one theorem per
claim of the specification review, each with its witness or
counterexample where required. -/

/-- C6: for every status in the fixed ordered sequence
(Neu, In Bearbeitung, Warten auf Benutzer, Gelöst, Geschlossen),
`next_status` returns the following status and clamps at the terminal
status (`next_status "Geschlossen" = "Geschlossen"`); `prev_status`
returns the preceding status and clamps at the first status
(`prev_status "Neu" = "Neu"`); and any input outside the known set passes
through both functions unchanged. -/
theorem next_prev_status_spec :
    next_status "Neu" = "In Bearbeitung" ∧
    next_status "In Bearbeitung" = "Warten auf Benutzer" ∧
    next_status "Warten auf Benutzer" = "Gelöst" ∧
    next_status "Gelöst" = "Geschlossen" ∧
    next_status "Geschlossen" = "Geschlossen" ∧
    prev_status "Neu" = "Neu" ∧
    prev_status "In Bearbeitung" = "Neu" ∧
    prev_status "Warten auf Benutzer" = "In Bearbeitung" ∧
    prev_status "Gelöst" = "Warten auf Benutzer" ∧
    prev_status "Geschlossen" = "Gelöst" ∧
    ∀ s : String, s ∉ STATI → next_status s = s ∧ prev_status s = s := by
  refine ⟨by decide, by decide, by decide, by decide, by decide, by decide,
    by decide, by decide, by decide, by decide, ?_⟩
  intro s hs
  simp only [STATI, List.mem_cons, List.not_mem_nil, or_false, not_or] at hs
  obtain ⟨h1, h2, h3, h4, h5⟩ := hs
  constructor <;>
    simp [next_status, prev_status, listIndex, STATI, h1, h2, h3, h4, h5]

/-- Witness for C6: the pass-through conjunct applied at the concrete
unknown status `"Storniert"`. -/
theorem next_prev_status_spec_witness :
    next_status "Storniert" = "Storniert" ∧
    prev_status "Storniert" = "Storniert" :=
  next_prev_status_spec.2.2.2.2.2.2.2.2.2.2 "Storniert" (by decide)

/-- C5: an update with an empty field mapping performs no write at all —
`update_ticket` (`services.py`), `TicketRepository.update` (`test1.py`)
and `Ticket.aktualisiere` (`Mein Ticketsystem/db.py`) all return the table
completely unchanged, timestamps included, for every ticket id, every
current instant and every table state. -/
theorem update_empty_fields_noop :
    ∀ (tid : Nat) (now : String) (rows : List TicketRow)
      (rowsMT : List TicketRowMT),
      update_ticket tid [] now rows = rows ∧
      TicketRepository.update tid [] now rows = rows ∧
      Ticket.aktualisiere tid [] now rowsMT = rowsMT :=
  fun _ _ _ _ => ⟨rfl, rfl, rfl⟩

/-- C10: passing the literal string `"Alle"` as the category or the
priority filter of `fetch_tickets` is treated exactly like an absent
filter — the result is equal, for every table state and every combination
of the other filters, to the result with that filter absent; consequently
no condition is added for that field and a stored category or priority
literally named `"Alle"` can never be selected by that filter. -/
theorem fetch_tickets_alle_passthrough :
    ∀ (cid : Option Nat) (arch : Bool) (st cat prio : Option String)
      (users : List UserRow) (tickets : List TicketRow),
      fetch_tickets cid arch st (some "Alle") prio users tickets
        = fetch_tickets cid arch st none prio users tickets ∧
      fetch_tickets cid arch st cat (some "Alle") users tickets
        = fetch_tickets cid arch st cat none users tickets :=
  fun _ _ _ _ _ _ _ => ⟨rfl, rfl⟩

/-- C1, counterexample: the claim "createTicket returns the new ticket's
id" fails for `create_ticket` (`services.py` lines 86–93), which has no
`return` statement and evaluates to `None` at this concrete call; and the
claim "the ticket stored immediately after creation has status equal to
the first status of the sequence" fails for `Ticket.repo_ticket_erstellen`
(`Mein Ticketsystem/db.py` lines 154–191), which writes the literal `NULL`
into `ID_Status` at this concrete call. -/
theorem create_ticket_claim_counterexample :
    (create_ticket "Drucker defekt" "Papierstau im 2.OG" "Hardware" "Normal"
        1 "2025-10-12 09:00:00" emptyTickets).1 = none ∧
    ((Ticket.repo_ticket_erstellen "Drucker defekt" "Papierstau im 2.OG"
        "hoch" none 1 "2025-10-12 09:00:00" emptyTicketMT).2.rows.map
      (fun t => t.ID_Status)) = [none] := by
  exact ⟨rfl, rfl⟩

/-- C1, amended: immediately after creation, `create_ticket`
(`services.py`) and `TicketRepository.create` (`test1.py`) store a ticket
with status `"Neu"`, `archived = 0`, and created/updated timestamps both
equal to the one current instant computed for the call;
`TicketRepository.create` and `Ticket.repo_ticket_erstellen` return the
new ticket's id, while `create_ticket` returns `None`; and
`Ticket.repo_ticket_erstellen` stores a `NULL` status (`ID_Status = none`)
rather than the first status of the sequence, with `Archiviert = 0` and
both timestamps equal to the current instant. -/
theorem create_ticket_amended_spec :
    ∀ (title description category priority : String) (cid : Nat)
      (now : String) (db : TicketsTable),
      ((create_ticket title description category priority cid now db).1
          = none ∧
        ∃ t, (create_ticket title description category priority cid now
              db).2.rows = db.rows ++ [t] ∧
          t.id = db.nextId ∧ t.status = "Neu" ∧ t.archived = 0 ∧
          t.created_at = now ∧ t.updated_at = now) ∧
      ((TicketRepository.create title description category priority cid now
            db).1 = db.nextId ∧
        ∃ t, (TicketRepository.create title description category priority
              cid now db).2.rows = db.rows ++ [t] ∧
          t.id = db.nextId ∧ t.status = "Neu" ∧ t.archived = 0 ∧
          t.created_at = now ∧ t.updated_at = now) ∧
      ∀ (kunde : Option Nat) (eid : Nat) (dbMT : TicketTableMT),
        (Ticket.repo_ticket_erstellen title description priority kunde eid
            now dbMT).1 = dbMT.nextId ∧
        ∃ t, (Ticket.repo_ticket_erstellen title description priority kunde
              eid now dbMT).2.rows = dbMT.rows ++ [t] ∧
          t.ID_Ticket = dbMT.nextId ∧ t.ID_Status = none ∧
          t.Archiviert = 0 ∧ t.Erstellt_am = now ∧ t.Geaendert_am = now :=
  fun _ _ _ _ _ _ _ =>
    ⟨⟨rfl, _, rfl, rfl, rfl, rfl, rfl, rfl⟩,
     ⟨rfl, _, rfl, rfl, rfl, rfl, rfl, rfl⟩,
     fun _ _ _ => ⟨rfl, _, rfl, rfl, rfl, rfl, rfl, rfl⟩⟩

/-- C2, counterexample: the ticket service `create_ticket`
(`services.py`), called with the priority `"urgent!!"` (outside every
priority enum of the code), stores the invalid input itself, not the
documented default; and `TicketDienst.svc_ticket_erstellen`
(`Mein Ticketsystem/services.py`), called with `"Normal"` — an element of
the enum named by the specification scenario — does not store it
unchanged but substitutes `"mittel"`. -/
theorem priority_default_counterexample :
    ((create_ticket "Titel" "Text" "Hardware" "urgent!!" 1
        "2025-10-12 09:00:00" emptyTickets).2.rows.map
      (fun t => t.priority)) = ["urgent!!"] ∧
    ((TicketDienst.svc_ticket_erstellen "Titel" "Text" "Normal" none 1
        "2025-10-12 09:00:00" emptyTicketMT).2.rows.map
      (fun t => t.Prioritaet)) = ["mittel"] := by
  constructor
  · rfl
  · simp [TicketDienst.svc_ticket_erstellen, Ticket.repo_ticket_erstellen,
      PRIO_WERTE, emptyTicketMT]

/-- C2, amended: only `TicketDienst.svc_ticket_erstellen` validates the
priority, and it does so against its own enum
`PRIO_WERTE = ["niedrig", "mittel", "hoch"]`: a priority in that list is
stored unchanged, any other value — including `"urgent!!"` and the
capitalized labels of the other variant's enum — is replaced by the
default `"mittel"` (medium); the `services.py` ticket service
`create_ticket` stores every priority value unchanged, without any
validation. -/
theorem priority_validation_amended_spec :
    (∀ p, p ∈ PRIO_WERTE →
      ∀ (titel besch : String) (kunde : Option Nat) (eid : Nat)
        (now : String) (db : TicketTableMT),
        ((TicketDienst.svc_ticket_erstellen titel besch p kunde eid now
            db).2.rows.map (fun t => t.Prioritaet))
          = db.rows.map (fun t => t.Prioritaet) ++ [p]) ∧
    (∀ p, p ∉ PRIO_WERTE →
      ∀ (titel besch : String) (kunde : Option Nat) (eid : Nat)
        (now : String) (db : TicketTableMT),
        ((TicketDienst.svc_ticket_erstellen titel besch p kunde eid now
            db).2.rows.map (fun t => t.Prioritaet))
          = db.rows.map (fun t => t.Prioritaet) ++ ["mittel"]) ∧
    ∀ (p titel besch cat : String) (cid : Nat) (now : String)
      (db : TicketsTable),
      ((create_ticket titel besch cat p cid now db).2.rows.map
        (fun t => t.priority))
        = db.rows.map (fun t => t.priority) ++ [p] := by
  refine ⟨?_, ?_, ?_⟩
  · intro p hp titel besch kunde eid now db
    simp [TicketDienst.svc_ticket_erstellen, Ticket.repo_ticket_erstellen,
      hp]
  · intro p hp titel besch kunde eid now db
    simp [TicketDienst.svc_ticket_erstellen, Ticket.repo_ticket_erstellen,
      hp]
  · intro p titel besch cat cid now db
    simp [create_ticket]

/-- Witness for C2 (amended): the valid priority `"niedrig"` is stored
unchanged and the invalid priority `"urgent!!"` is stored as `"mittel"`,
both on the empty table. -/
theorem priority_validation_amended_spec_witness :
    ((TicketDienst.svc_ticket_erstellen "T" "B" "niedrig" none 1
        "2025-10-12 09:00:00" emptyTicketMT).2.rows.map
      (fun t => t.Prioritaet)) = [] ++ ["niedrig"] ∧
    ((TicketDienst.svc_ticket_erstellen "T" "B" "urgent!!" none 1
        "2025-10-12 09:00:00" emptyTicketMT).2.rows.map
      (fun t => t.Prioritaet)) = [] ++ ["mittel"] :=
  ⟨priority_validation_amended_spec.1 "niedrig" (by decide) "T" "B" none 1
      "2025-10-12 09:00:00" emptyTicketMT,
   priority_validation_amended_spec.2.1 "urgent!!" (by decide) "T" "B" none
      1 "2025-10-12 09:00:00" emptyTicketMT⟩

/-- C3, code bug: the repository's create is required (by the
specification and by the repository's own test
`test_app.py::test_ticket_erstellen_ungueltige_daten`, which expects an
exception when title and description are empty) to reject empty required
fields, but `TicketRepository.create` (`test1.py` lines 152–163) performs
no validation: called with a title that is empty after trimming
whitespace and an empty description, it persists the row unchanged and
returns its new id. -/
theorem repo_create_empty_fields_persists_row :
    pyStrip " " = "" ∧ pyStrip "" = "" ∧
    ((TicketRepository.create " " "" "Hardware" "Normal" 1
        "2025-10-12 09:00:00" emptyTickets).2.rows.map
      (fun t => (t.title, t.description))) = [(" ", "")] ∧
    (TicketRepository.create " " "" "Hardware" "Normal" 1
        "2025-10-12 09:00:00" emptyTickets).1 = 1 := by
  exact ⟨by decide, by decide, rfl, rfl⟩

/-- C7: the active-user lookup `get_user_by_username` returns absent both
when no row matches the stripped identifier and when the matched (first)
row is inactive; consequently `login_user` returns the one "no match"
result `none` — identical in shape — for a deactivated user with their
correct password (any password at all), for an active user with a wrong
password, and for a nonexistent user, whatever the password verifier
does. -/
theorem login_no_user_enumeration :
    ∀ (verify : String → String → Bool) (users : List UserRow)
      (username password : String),
      (users.filter (fun r => r.username == pyStrip username) = [] →
        get_user_by_username users username = none) ∧
      (∀ r rest,
        users.filter (fun r => r.username == pyStrip username)
          = r :: rest →
        r.active ≠ 1 → get_user_by_username users username = none) ∧
      (get_user_by_username users (pyStrip username) = none →
        login_user verify users username password = none) ∧
      (∀ u, get_user_by_username users (pyStrip username) = some u →
        verify password u.password_hash = false →
        login_user verify users username password = none) := by
  intro verify users username password
  refine ⟨?_, ?_, ?_, ?_⟩
  · intro h
    simp [get_user_by_username, h]
  · intro r rest h hact
    simp [get_user_by_username, h, hact]
  · intro h
    simp [login_user, h]
  · intro u h hv
    simp [login_user, h, hv]

/-- Witness for C7: logging in as the deactivated user `bobInactive` with
the password `"pw"` — correct under the stand-in verifier
`fun p h => p == h`, which accepts exactly the stored hash — returns
`none`. -/
theorem login_no_user_enumeration_witness :
    login_user (fun p h => p == h) [bobInactive] "bob" "pw" = none :=
  (login_no_user_enumeration (fun p h => p == h) [bobInactive] "bob"
    "pw").2.2.1 (by decide)

/-- C9, counterexample: `deactivate_user` executes
`UPDATE users SET active=0, deleted_at=NOW() WHERE id=%s` on every call,
so deactivating the already-inactive user a second time at a later
instant is not a no-op: it overwrites the recorded deactivation
timestamp, changing the stored row. -/
theorem deactivate_twice_counterexample :
    deactivate_user 1 "2025-01-02 00:00:00"
        (deactivate_user 1 "2025-01-01 00:00:00" [aliceActive])
      ≠ deactivate_user 1 "2025-01-01 00:00:00" [aliceActive] := by
  decide

/-- C9, amended: `deactivate_user` is total (an already-inactive target is
not an error) and always leaves the targeted row with `active = 0` and
`deleted_at` equal to the current instant of that call; it is idempotent
only up to the timestamp — repeating the call at the same instant changes
nothing, while repeating it at a later instant rewrites `deleted_at` to
the new instant (as the counterexample shows). -/
theorem deactivate_amended_spec :
    (∀ (uid : Nat) (now : String) (users : List UserRow) (u : UserRow),
      u ∈ deactivate_user uid now users → u.id = uid →
      u.active = 0 ∧ u.deleted_at = some now) ∧
    ∀ (uid : Nat) (now : String) (users : List UserRow),
      deactivate_user uid now (deactivate_user uid now users)
        = deactivate_user uid now users := by
  constructor
  · intro uid now users u hu hid
    unfold deactivate_user at hu
    rw [List.mem_map] at hu
    obtain ⟨v, hv, rfl⟩ := hu
    by_cases h : v.id == uid
    · simp [h]
    · rw [if_neg h] at hid ⊢
      exact absurd (by simp [hid]) h
  · intro uid now users
    unfold deactivate_user
    rw [List.map_map]
    apply List.map_congr_left
    intro u _
    by_cases h : u.id == uid <;> simp [Function.comp, h]

/-- Witness for C9 (amended): after deactivating the active user
`aliceActive` at a concrete instant, the stored row with her id is
inactive and carries that instant as its deactivation timestamp. -/
theorem deactivate_amended_spec_witness :
    ({ aliceActive with
        active := 0
        deleted_at := some "2025-01-01 00:00:00" } : UserRow).active = 0 ∧
    ({ aliceActive with
        active := 0
        deleted_at := some "2025-01-01 00:00:00" } : UserRow).deleted_at
      = some "2025-01-01 00:00:00" :=
  deactivate_amended_spec.1 1 "2025-01-01 00:00:00" [aliceActive] _
    (by decide) (by decide)

/-- Helper: membership in the descending insertion is membership in the
inserted element or the list. -/
theorem mem_insertByUpdatedDesc {a t : TicketRow} {l : List TicketRow} :
    a ∈ insertByUpdatedDesc t l ↔ a = t ∨ a ∈ l := by
  induction l with
  | nil => simp [insertByUpdatedDesc]
  | cons x xs ih =>
      unfold insertByUpdatedDesc
      split
      · simp only [List.mem_cons, ih]
        tauto
      · simp [List.mem_cons]

/-- Helper: sorting by `updated_at` descending preserves membership. -/
theorem mem_sortByUpdatedDesc {a : TicketRow} {l : List TicketRow} :
    a ∈ sortByUpdatedDesc l ↔ a ∈ l := by
  induction l with
  | nil => simp [sortByUpdatedDesc]
  | cons x xs ih =>
      unfold sortByUpdatedDesc
      rw [mem_insertByUpdatedDesc, ih, List.mem_cons]

/-- Helper: when `archived = False`, the condition `t.archived = 0` is in
the built WHERE list, whatever the other filters are. -/
theorem archived_cond_mem_whereConds (cid : Option Nat)
    (st cat prio : Option String) :
    (fun t : TicketRow => t.archived == 0)
      ∈ whereConds cid false st cat prio :=
  List.mem_cons_self _ _

/-- C8: `fetch_tickets` called with `archived = False` never returns a row
whose stored `archived` flag is set, for every combination of the optional
filters and every table state; the `archived = 0` condition is the only
condition applied unconditionally — with `archived = True` and all
optional filters absent the built WHERE list is empty — and every absent
filter imposes no condition: the result is then the full ordered,
name-enriched ticket list with no row filtered out. -/
theorem fetch_tickets_archived_filter_spec :
    (∀ (cid : Option Nat) (st cat prio : Option String)
       (users : List UserRow) (tickets : List TicketRow)
       (row : FetchedRow),
       row ∈ fetch_tickets cid false st cat prio users tickets →
       row.ticket.archived = 0) ∧
    whereConds none true none none none = [] ∧
    ∀ (users : List UserRow) (tickets : List TicketRow),
      fetch_tickets none true none none none users tickets
        = (sortByUpdatedDesc tickets).filterMap (joinNames users) := by
  refine ⟨?_, rfl, ?_⟩
  · intro cid st cat prio users tickets row hrow
    unfold fetch_tickets at hrow
    rw [List.mem_filterMap] at hrow
    obtain ⟨t, ht, hj⟩ := hrow
    unfold joinNames at hj
    rw [Option.map_eq_some'] at hj
    obtain ⟨u, _, hju⟩ := hj
    have hticket : row.ticket = t := by rw [← hju]
    rw [mem_sortByUpdatedDesc, List.mem_filter] at ht
    have hall := List.all_eq_true.mp ht.2 _
      (archived_cond_mem_whereConds cid st cat prio)
    rw [hticket]
    simpa using hall
  · intro users tickets
    exact congrArg (fun l => List.filterMap (joinNames users)
      (sortByUpdatedDesc l)) (List.filter_eq_self.mpr (fun a _ => rfl))

/-- Witness for C8: on a table with one active user and one non-archived
ticket, `fetch_tickets` with `archived = False` and no other filters
returns the enriched row, and the theorem yields `archived = 0` for it. -/
theorem fetch_tickets_archived_filter_spec_witness :
    ({ ticket := sampleTicket, creator_name := "alice",
        assignee_name := none } : FetchedRow).ticket.archived = 0 :=
  fetch_tickets_archived_filter_spec.1 none none none none [aliceActive]
    [sampleTicket] _ (by decide)

/-- Helper: an assignment to a column other than `updated_at` leaves
`updated_at` unchanged. -/
theorem applyField_updated_at_of_ne (t : TicketRow) (k : String) (v : Value)
    (h : k ≠ "updated_at") :
    (applyField t (k, v)).updated_at = t.updated_at := by
  unfold applyField
  split_ifs <;> first
    | rfl
    | (cases v <;> rfl)

/-- Helper: the assignment `updated_at = s` sets exactly that column. -/
theorem applyField_updated_at_set (t : TicketRow) (s : String) :
    (applyField t ("updated_at", .str s)).updated_at = s := by
  simp [applyField]

/-- Helper: a fold of assignments none of which touches `updated_at`
leaves `updated_at` unchanged. -/
theorem foldl_applyField_updated_at_preserve :
    ∀ (fs : Fields) (t : TicketRow),
      (∀ kv ∈ fs, kv.1 ≠ "updated_at") →
      (fs.foldl applyField t).updated_at = t.updated_at := by
  intro fs
  induction fs with
  | nil => intro t _; rfl
  | cons kv fs ih =>
      intro t h
      rw [List.foldl_cons,
        ih _ (fun kv' h' => h kv' (List.mem_cons_of_mem _ h'))]
      obtain ⟨k, v⟩ := kv
      exact applyField_updated_at_of_ne t k v
        (h (k, v) (List.mem_cons_self _ _))

/-- Helper: a fold of assignments containing the key `updated_at`, all of
whose `updated_at` entries carry the value `s`, ends with
`updated_at = s`. -/
theorem foldl_applyField_updated_at_set :
    ∀ (fs : Fields) (t : TicketRow) (s : String),
      (∃ kv ∈ fs, kv.1 = "updated_at") →
      (∀ kv ∈ fs, kv.1 = "updated_at" → kv.2 = .str s) →
      (fs.foldl applyField t).updated_at = s := by
  intro fs
  induction fs with
  | nil =>
      rintro t s ⟨kv, hkv, -⟩ -
      exact absurd hkv (List.not_mem_nil _)
  | cons kv fs ih =>
      rintro t s hex hall
      rw [List.foldl_cons]
      by_cases hmem : ∃ kv' ∈ fs, kv'.1 = "updated_at"
      · exact ih _ s hmem
          (fun kv' h' hk => hall kv' (List.mem_cons_of_mem _ h') hk)
      · push_neg at hmem
        obtain ⟨kv0, hkv0mem, hkv0⟩ := hex
        rcases List.mem_cons.mp hkv0mem with rfl | htail
        · have hval := hall kv0 (List.mem_cons_self _ _) hkv0
          rw [foldl_applyField_updated_at_preserve fs _ hmem]
          obtain ⟨k, v⟩ := kv0
          simp only at hkv0 hval
          subst hkv0
          subst hval
          exact applyField_updated_at_set t s
        · exact absurd hkv0 (hmem kv0 htail)

/-- Helper: when the key is absent (`lookupField` gives `none`), Python's
`setdefault` appends the pair at the end. -/
theorem dictSetdefault_of_lookup_none {fs : Fields} {k : String}
    {v : Value} (h : lookupField fs k = none) :
    dictSetdefault fs k v = fs ++ [(k, v)] := by
  unfold lookupField at h
  rw [Option.map_eq_none'] at h
  unfold dictSetdefault
  simp [h]

/-- Helper: when the key is present, Python's `setdefault` leaves the dict
unchanged. -/
theorem dictSetdefault_of_lookup_some {fs : Fields} {k : String}
    {v w : Value} (h : lookupField fs k = some w) :
    dictSetdefault fs k v = fs := by
  unfold lookupField at h
  rw [Option.map_eq_some'] at h
  obtain ⟨a, ha, -⟩ := h
  unfold dictSetdefault
  simp [ha]

/-- Helper: after the dict assignment `fs[k] = v`, every entry under the
key `k` carries the value `v`. -/
theorem dictSet_key_all {fs : Fields} {k : String} {v : Value} :
    ∀ kv ∈ dictSet fs k v, kv.1 = k → kv.2 = v := by
  intro kv hkv hk
  unfold dictSet at hkv
  split at hkv
  · rw [List.mem_map] at hkv
    obtain ⟨orig, -, heq⟩ := hkv
    by_cases horig : orig.1 == k
    · rw [if_pos horig] at heq
      rw [← heq]
    · rw [if_neg horig] at heq
      subst heq
      exact absurd (by simp [hk]) horig
  · rename_i hfind
    rcases List.mem_append.mp hkv with hmem | hmem
    · have hnone : fs.find? (fun kv => kv.1 == k) = none := by
        cases hfound : fs.find? (fun kv => kv.1 == k) with
        | none => rfl
        | some a => exact absurd (by rw [hfound]; rfl) hfind
      have := List.find?_eq_none.mp hnone kv hmem
      exact absurd (by simp [hk]) this
    · simp only [List.mem_singleton] at hmem
      rw [hmem]

/-- Helper: after the dict assignment `fs[k] = v`, the pair `(k, v)` is an
entry of the dict. -/
theorem mem_dictSet_self {fs : Fields} {k : String} {v : Value} :
    (k, v) ∈ dictSet fs k v := by
  unfold dictSet
  split
  · rename_i hfind
    rw [Option.isSome_iff_exists] at hfind
    obtain ⟨a, ha⟩ := hfind
    rw [List.mem_map]
    exact ⟨a, List.mem_of_find?_eq_some ha,
      by rw [if_pos (List.find?_some ha)]⟩
  · exact List.mem_append.mpr (Or.inr (List.mem_singleton.mpr rfl))

/-- Helper: under key uniqueness (a Python dict), every entry with the
looked-up key carries the looked-up value. -/
theorem lookupField_unique :
    ∀ (fs : Fields) (k : String) (w : Value),
      (fs.map Prod.fst).Nodup → lookupField fs k = some w →
      ∀ kv ∈ fs, kv.1 = k → kv.2 = w := by
  intro fs
  induction fs with
  | nil =>
      intro k w _ _ kv hkv _
      exact absurd hkv (List.not_mem_nil _)
  | cons a fs ih =>
      intro k w hnd h kv hkv hk
      unfold lookupField at h
      rw [List.map_cons, List.nodup_cons] at hnd
      by_cases hak : a.1 = k
      · rw [List.find?_cons_of_pos _ (by simp [hak])] at h
        rcases List.mem_cons.mp hkv with rfl | htail
        · simpa using h
        · exact absurd (hak ▸ hk ▸ List.mem_map_of_mem Prod.fst htail)
            hnd.1
      · rw [List.find?_cons_of_neg _ (by simp [hak])] at h
        rcases List.mem_cons.mp hkv with rfl | htail
        · exact absurd hk hak
        · exact ih k w hnd.2 h kv htail hk

/-- Helper: the key looked up with result `some w` is carried by some
entry of the dict. -/
theorem lookupField_mem {fs : Fields} {k : String} {w : Value}
    (h : lookupField fs k = some w) : ∃ kv ∈ fs, kv.1 = k := by
  unfold lookupField at h
  rw [Option.map_eq_some'] at h
  obtain ⟨a, ha, -⟩ := h
  exact ⟨a, List.mem_of_find?_eq_some ha, by
    have := List.find?_some ha
    simpa using this⟩

/-- Helper: an assignment to a column other than `Geändert_am` leaves
`Geaendert_am` unchanged (`Mein Ticketsystem` schema). -/
theorem applyFieldMT_geandert_of_ne (t : TicketRowMT) (k : String)
    (v : Value) (h : k ≠ "Geändert_am") :
    (applyFieldMT t (k, v)).Geaendert_am = t.Geaendert_am := by
  unfold applyFieldMT
  split_ifs <;> first
    | rfl
    | (cases v <;> rfl)

/-- Helper: the assignment `Geändert_am = s` sets exactly that column. -/
theorem applyFieldMT_geandert_set (t : TicketRowMT) (s : String) :
    (applyFieldMT t ("Geändert_am", .str s)).Geaendert_am = s := by
  simp [applyFieldMT]

/-- Helper: a fold of assignments none of which touches `Geändert_am`
leaves `Geaendert_am` unchanged. -/
theorem foldl_applyFieldMT_geandert_preserve :
    ∀ (fs : Fields) (t : TicketRowMT),
      (∀ kv ∈ fs, kv.1 ≠ "Geändert_am") →
      (fs.foldl applyFieldMT t).Geaendert_am = t.Geaendert_am := by
  intro fs
  induction fs with
  | nil => intro t _; rfl
  | cons kv fs ih =>
      intro t h
      rw [List.foldl_cons,
        ih _ (fun kv' h' => h kv' (List.mem_cons_of_mem _ h'))]
      obtain ⟨k, v⟩ := kv
      exact applyFieldMT_geandert_of_ne t k v
        (h (k, v) (List.mem_cons_self _ _))

/-- Helper: a fold of assignments containing the key `Geändert_am`, all of
whose `Geändert_am` entries carry the value `s`, ends with
`Geaendert_am = s`. -/
theorem foldl_applyFieldMT_geandert_set :
    ∀ (fs : Fields) (t : TicketRowMT) (s : String),
      (∃ kv ∈ fs, kv.1 = "Geändert_am") →
      (∀ kv ∈ fs, kv.1 = "Geändert_am" → kv.2 = .str s) →
      (fs.foldl applyFieldMT t).Geaendert_am = s := by
  intro fs
  induction fs with
  | nil =>
      rintro t s ⟨kv, hkv, -⟩ -
      exact absurd hkv (List.not_mem_nil _)
  | cons kv fs ih =>
      rintro t s hex hall
      rw [List.foldl_cons]
      by_cases hmem : ∃ kv' ∈ fs, kv'.1 = "Geändert_am"
      · exact ih _ s hmem
          (fun kv' h' hk => hall kv' (List.mem_cons_of_mem _ h') hk)
      · push_neg at hmem
        obtain ⟨kv0, hkv0mem, hkv0⟩ := hex
        rcases List.mem_cons.mp hkv0mem with rfl | htail
        · have hval := hall kv0 (List.mem_cons_self _ _) hkv0
          rw [foldl_applyFieldMT_geandert_preserve fs _ hmem]
          obtain ⟨k, v⟩ := kv0
          simp only at hkv0 hval
          subst hkv0
          subst hval
          exact applyFieldMT_geandert_set t s
        · exact absurd hkv0 (hmem kv0 htail)

/-- C4, counterexample: `update_ticket` (`services.py` lines 116–121) uses
`fields.setdefault("updated_at", now_utc_str())`, so at this concrete
call, where the caller supplies their own `updated_at` value inside the
mapping, the stored timestamp is the caller's value, not the current
instant — the updated-timestamp is not unconditionally overwritten. -/
theorem update_ticket_caller_timestamp_counterexample :
    ((update_ticket 1 [("updated_at", .str "2020-01-01 00:00:00")]
        "2025-10-12 10:00:00" [sampleTicket]).map (fun t => t.updated_at))
      = ["2020-01-01 00:00:00"] ∧
    ("2020-01-01 00:00:00" : String) ≠ "2025-10-12 10:00:00" := by
  exact ⟨rfl, by decide⟩

/-- C4, amended: `Ticket.aktualisiere` (`Mein Ticketsystem/db.py`)
unconditionally overwrites the changed-timestamp with the current instant
on every non-empty update, including when the caller supplies their own
`Geändert_am` value; `update_ticket` (`services.py`) sets the
updated-timestamp to the current instant only when the caller did not
supply `updated_at` in the mapping — a caller-supplied `updated_at` value
is stored as given (key uniqueness of the Python keyword dict assumed). -/
theorem update_timestamp_amended_spec :
    (∀ (tid : Nat) (felder : Fields) (now : String)
       (rows : List TicketRowMT) (t : TicketRowMT),
       felder ≠ [] → t ∈ Ticket.aktualisiere tid felder now rows →
       t.ID_Ticket = tid → t.Geaendert_am = now) ∧
    (∀ (tid : Nat) (fields : Fields) (now : String)
       (rows : List TicketRow) (t : TicketRow),
       fields ≠ [] → lookupField fields "updated_at" = none →
       t ∈ update_ticket tid fields now rows → t.id = tid →
       t.updated_at = now) ∧
    ∀ (tid : Nat) (fields : Fields) (now s : String)
      (rows : List TicketRow) (t : TicketRow),
      (fields.map Prod.fst).Nodup →
      lookupField fields "updated_at" = some (.str s) →
      t ∈ update_ticket tid fields now rows → t.id = tid →
      t.updated_at = s := by
  refine ⟨?_, ?_, ?_⟩
  · intro tid felder now rows t hne hmem hid
    cases felder with
    | nil => exact absurd rfl hne
    | cons a fs =>
        have hmem' : t ∈ rows.map (fun r =>
            if r.ID_Ticket == tid then
              (dictSet (a :: fs) "Geändert_am" (.str now)).foldl
                applyFieldMT r
            else r) := by
          simpa [Ticket.aktualisiere] using hmem
        rw [List.mem_map] at hmem'
        obtain ⟨r, _, heq⟩ := hmem'
        by_cases hrid : r.ID_Ticket == tid
        · rw [if_pos hrid] at heq
          subst heq
          exact foldl_applyFieldMT_geandert_set _ r now
            ⟨("Geändert_am", .str now), mem_dictSet_self, rfl⟩
            (fun kv hkv hk => dictSet_key_all kv hkv hk)
        · rw [if_neg hrid] at heq
          subst heq
          exact absurd (by simp [hid]) hrid
  · intro tid fields now rows t hne hlookup hmem hid
    cases fields with
    | nil => exact absurd rfl hne
    | cons a fs =>
        have hmem' : t ∈ rows.map (fun r =>
            if r.id == tid then
              (dictSetdefault (a :: fs) "updated_at" (.str now)).foldl
                applyField r
            else r) := by
          simpa [update_ticket] using hmem
        rw [List.mem_map] at hmem'
        obtain ⟨r, _, heq⟩ := hmem'
        by_cases hrid : r.id == tid
        · rw [if_pos hrid] at heq
          rw [dictSetdefault_of_lookup_none hlookup] at heq
          subst heq
          rw [List.foldl_append, List.foldl_cons, List.foldl_nil]
          exact applyField_updated_at_set _ now
        · rw [if_neg hrid] at heq
          subst heq
          exact absurd (by simp [hid]) hrid
  · intro tid fields now s rows t hnd hlookup hmem hid
    cases fields with
    | nil => exact absurd hlookup (by simp [lookupField])
    | cons a fs =>
        have hmem' : t ∈ rows.map (fun r =>
            if r.id == tid then
              (dictSetdefault (a :: fs) "updated_at" (.str now)).foldl
                applyField r
            else r) := by
          simpa [update_ticket] using hmem
        rw [List.mem_map] at hmem'
        obtain ⟨r, _, heq⟩ := hmem'
        by_cases hrid : r.id == tid
        · rw [if_pos hrid] at heq
          rw [dictSetdefault_of_lookup_some hlookup] at heq
          subst heq
          exact foldl_applyField_updated_at_set _ r s
            (lookupField_mem hlookup)
            (lookupField_unique _ _ _ hnd hlookup)
        · rw [if_neg hrid] at heq
          subst heq
          exact absurd (by simp [hid]) hrid

/-- Witness for C4 (amended): a concrete `Ticket.aktualisiere` call that
only changes the priority still ends with the changed-timestamp equal to
the current instant of the call. -/
theorem update_timestamp_amended_spec_witness :
    (([("Priorität", Value.str "hoch"),
        ("Geändert_am", Value.str "2025-10-12 10:00:00")].foldl
      applyFieldMT sampleTicketMT)).Geaendert_am = "2025-10-12 10:00:00" :=
  update_timestamp_amended_spec.1 1 [("Priorität", Value.str "hoch")]
    "2025-10-12 10:00:00" [sampleTicketMT] _ (by decide) (by decide)
    (by decide)
